import Mathlib

/-!
Shallow embedding of the authentication/session core of
src/nodejs/server.js (Express + express-session + bcryptjs + mongoose).

The server state holds the credential store (the mongoose User collection),
the session store (connect-mongodb-session records, keyed by session id),
the contact collection, a counter from which fresh session ids are drawn
(modelling the session id generator: ids issued by the server are pairwise
distinct), a counter for user record ids, and a counter of password-hash
invocations (so that claims about work avoided can be stated).

The password hasher (bcryptjs) is kept abstract as a structure of two
functions, mirroring the two calls the source makes:
hash(password, 10) and compare(password, storedHash).

Store failures that the claims quantify over (session regeneration and
session destruction) are modelled as explicit boolean parameters of the
handler; other store operations are modelled as succeeding, as the claims
under consideration do not involve them.
-/

set_option autoImplicit false

namespace NodeServer

/-- A persisted user record (mongoose User model, server.js lines 86-92).
The `password` field holds whatever string was stored, i.e. the bcrypt
hash computed at registration. -/
structure User where
  id : Nat
  username : String
  email : String
  password : String
deriving Repr, DecidableEq

/-- Per-session data: the only field the handlers touch is
req.session.userId (absent on anonymous sessions). -/
structure SessionData where
  userId : Option Nat
deriving Repr, DecidableEq

/-- A persisted contact message (mongoose Contact model, lines 95-103). -/
structure ContactRec where
  name : String
  email : String
  message : String
  userId : Option Nat
deriving Repr, DecidableEq

/-- The whole mutable server-side state: users collection, session store
(association list keyed by session id, first match wins as in a keyed
store), contacts collection, and the id/counter bookkeeping. -/
structure ServerState where
  users : List User
  sessions : List (Nat × SessionData)
  contacts : List ContactRec
  nextSid : Nat
  nextUserId : Nat
  hashCalls : Nat
deriving Repr, DecidableEq

/-- An HTTP response: status code, body text, and whether the handler
instructed the client to discard the session cookie (res.clearCookie). -/
structure Response where
  status : Nat
  body : String
  clearCookie : Bool
deriving Repr, DecidableEq

/-- A response with no clearCookie instruction (the common case). -/
def mkResp (status : Nat) (body : String) : Response :=
  { status := status, body := body, clearCookie := false }

/-- The abstract password hasher (bcryptjs): hash takes the plaintext and
the cost factor; verify is bcrypt.compare against a stored hash. -/
structure Hasher where
  hash : String → Nat → String
  verify : String → String → Bool

/-- Body of POST /register; a missing field (undefined after JS
destructuring) is `none`, a present field `some`. -/
structure RegisterBody where
  username : Option String
  email : Option String
  password : Option String
deriving Repr, DecidableEq

/-- Body of POST /login. -/
structure LoginBody where
  email : Option String
  password : Option String
deriving Repr, DecidableEq

/-- Body of POST /contact. -/
structure ContactBody where
  name : Option String
  email : Option String
  message : Option String
deriving Repr, DecidableEq

/-- Store lookup by session id (first record with the given key). -/
def findSid (l : List (Nat × SessionData)) (p : Nat) : Option (Nat × SessionData) :=
  l.find? (fun e => e.1 == p)

/-- Destroy the record with the given session id (session store destroy). -/
def removeSid (l : List (Nat × SessionData)) (p : Nat) : List (Nat × SessionData) :=
  l.filter (fun e => e.1 != p)

/-- Destroy the record of the current session, if a cookie was presented. -/
def destroyCurrent (l : List (Nat × SessionData)) : Option Nat → List (Nat × SessionData)
  | none => l
  | some p => removeSid l p

/-- req.session.userId as seen by a handler: the user id bound to the
session the presented cookie resolves to, if any.  With
saveUninitialized:false, a missing or unresolvable cookie yields a fresh
session with no userId. -/
def sessionUserId (s : ServerState) (presented : Option Nat) : Option Nat :=
  match presented with
  | none => none
  | some p =>
    match findSid s.sessions p with
    | none => none
    | some e => e.2.userId

/-- User.findOne on the email filter.  When the email field is undefined,
mongoose strips the undefined key from the filter, so findOne runs with an
empty filter and returns the first stored document, if any. -/
def findOneByEmail (users : List User) : Option String → Option User
  | some e => users.find? (fun u => u.email == e)
  | none => users.head?

/-- Whether a value passes the mongoose `required: true` check for a
String path: the value must be present and non-empty. -/
def requiredStr : Option String → Bool
  | some v => v != ""
  | none => false

/-- Lines 114-123 of server.js: everything POST /register does after the
existence pre-check has passed.  bcrypt.hash is called first (the hashCalls
counter increments before any save outcome is known); hashing a missing
(undefined) password throws, landing in the catch block (500).  newUser.save()
enforces the schema: required non-empty username/email/password, and the
unique index on email; a validation or duplicate-key rejection also lands in
the catch block, surfaced as 500 "Error registering user.". -/
def registerInsert (h : Hasher) (s : ServerState) (b : RegisterBody) :
    ServerState × Response :=
  match b.password with
  | none => (s, mkResp 500 "Error registering user.")
  | some pw =>
    let hashed := h.hash pw 10
    let s1 := { s with hashCalls := s.hashCalls + 1 }
    match b.username, b.email with
    | some un, some em =>
      if un == "" || em == "" || hashed == "" then
        (s1, mkResp 500 "Error registering user.")
      else if (s1.users.find? (fun u => u.email == em)).isSome then
        (s1, mkResp 500 "Error registering user.")
      else
        ({ s1 with
            users := s1.users ++
              [{ id := s1.nextUserId, username := un, email := em, password := hashed }],
            nextUserId := s1.nextUserId + 1 },
          mkResp 201 "User registered successfully!")
    | _, _ => (s1, mkResp 500 "Error registering user.")

/-- POST /register (lines 106-124): existence pre-check by email, then the
insert phase above. -/
def register (h : Hasher) (s : ServerState) (b : RegisterBody) :
    ServerState × Response :=
  match findOneByEmail s.users b.email with
  | some _ => (s, mkResp 400 "User already exists.")
  | none => registerInsert h s b

/-- POST /login (lines 127-148).  findOne by email; unknown email and
failed bcrypt.compare both answer 400 "Invalid email or password.".
bcrypt.compare with an undefined password throws, landing in the catch
block (500).  On a verified password, req.session.regenerate destroys the
record of the presented session (if any) and allocates a fresh id, and only
then is req.session.userId assigned; `regenOk` is the outcome of
regeneration — on failure the handler answers 500 and writes nothing. -/
def login (h : Hasher) (s : ServerState) (presented : Option Nat)
    (b : LoginBody) (regenOk : Bool) : ServerState × Response :=
  match findOneByEmail s.users b.email with
  | none => (s, mkResp 400 "Invalid email or password.")
  | some user =>
    match b.password with
    | none => (s, mkResp 500 "Error logging in.")
    | some pw =>
      if h.verify pw user.password then
        if regenOk then
          ({ s with
              sessions := destroyCurrent s.sessions presented ++
                [(s.nextSid, { userId := some user.id })],
              nextSid := s.nextSid + 1 },
            mkResp 200 "Login successful!")
        else
          (s, mkResp 500 "Error logging in.")
      else
        (s, mkResp 400 "Invalid email or password.")

/-- POST /logout (lines 151-157): req.session.destroy removes the session
record; on success the handler clears the cookie and answers 200, on a
store error it answers 500 without clearing the cookie. -/
def logout (s : ServerState) (presented : Option Nat) (destroyOk : Bool) :
    ServerState × Response :=
  if destroyOk then
    ({ s with sessions := destroyCurrent s.sessions presented },
      { status := 200, body := "Logout successful!", clearCookie := true })
  else
    (s, mkResp 500 "Error logging out.")

/-- GET /dashboard (lines 160-165): 401 when no user id is bound to the
current session, otherwise 200. -/
def dashboard (s : ServerState) (presented : Option Nat) :
    ServerState × Response :=
  match sessionUserId s presented with
  | none => (s, mkResp 401 "Unauthorized. Please log in.")
  | some _ => (s, mkResp 200 "Welcome to your dashboard!")

/-- POST /contact (lines 168-185): persists a contact record carrying
req.session.userId || null; schema-required fields make an empty or missing
field a save rejection landing in the catch block (500). -/
def contact (s : ServerState) (presented : Option Nat) (b : ContactBody) :
    ServerState × Response :=
  match b.name, b.email, b.message with
  | some n, some e, some m =>
    if n == "" || e == "" || m == "" then
      (s, mkResp 500 "Error submitting message.")
    else
      let rec0 : ContactRec :=
        { name := n, email := e, message := m, userId := sessionUserId s presented }
      ({ s with contacts := s.contacts ++ [rec0] },
        mkResp 201 "Message submitted successfully!")
  | _, _, _ => (s, mkResp 500 "Error submitting message.")

/-- One incoming request to any of the five endpoints, together with the
per-request environment the model makes explicit (session-operation
outcomes). -/
inductive Request where
  | reg (b : RegisterBody)
  | auth (b : LoginBody) (regenOk : Bool)
  | quit (destroyOk : Bool)
  | board
  | message (b : ContactBody)
deriving Repr, DecidableEq

/-- Dispatch one request to its handler. -/
def step (h : Hasher) (s : ServerState) (presented : Option Nat) :
    Request → ServerState × Response
  | Request.reg b => register h s b
  | Request.auth b regenOk => login h s presented b regenOk
  | Request.quit destroyOk => logout s presented destroyOk
  | Request.board => dashboard s presented
  | Request.message b => contact s presented b

/-- Run a list of requests, each with its own presented cookie. -/
def run (h : Hasher) : ServerState → List (Option Nat × Request) → ServerState
  | s, [] => s
  | s, (c, r) :: rest => run h (step h s c r).1 rest

/-- A session store record binds user id `uid` under session id `sid`. -/
def binds (s : ServerState) (sid uid : Nat) : Prop :=
  sessionUserId s (some sid) = some uid

instance (s : ServerState) (sid uid : Nat) : Decidable (binds s sid uid) := by
  unfold binds; infer_instance

/-- Well-formedness of the id supply: every session id live in the store
was drawn from the counter, hence is below it.  Holds for every state the
server can reach from an empty store, since ids are only allocated from
the counter. -/
def WF (s : ServerState) : Prop :=
  ∀ e ∈ s.sessions, e.1 < s.nextSid

instance (s : ServerState) : Decidable (WF s) := by
  unfold WF; infer_instance

/-- A concrete executable hasher standing in for bcryptjs in witnesses:
the digest records the cost and the plaintext behind a bcrypt-style
version prefix, so digests are never empty and never equal the plaintext. -/
def bcryptLike : Hasher :=
  { hash := fun p c => "$2b$" ++ toString c ++ "$" ++ p,
    verify := fun p st => st == "$2b$" ++ "10" ++ "$" ++ p }

end NodeServer

namespace NodeServer

/-! ### Helper lemmas about the session store and handler frames -/

theorem mem_destroyCurrent {l : List (Nat × SessionData)} {pres : Option Nat}
    {e : Nat × SessionData} (h : e ∈ destroyCurrent l pres) : e ∈ l := by
  cases pres with
  | none => exact h
  | some p => exact List.mem_of_mem_filter h

theorem findSid_removeSid_self (l : List (Nat × SessionData)) (p : Nat) :
    findSid (removeSid l p) p = none := by
  rw [findSid, List.find?_eq_none]
  intro e he
  have hkeep := List.of_mem_filter he
  simp only [bne_iff_ne, ne_eq] at hkeep
  simp [hkeep]

theorem findSid_removeSid_ne (l : List (Nat × SessionData)) (p sid : Nat)
    (h : sid ≠ p) : findSid (removeSid l p) sid = findSid l sid := by
  induction l with
  | nil => rfl
  | cons e tl ih =>
    simp only [removeSid, findSid] at ih ⊢
    by_cases hep : e.1 = p
    · have h1 : (e.1 != p) = false := by simp [hep]
      have h2 : (e.1 == sid) = false := by
        simp only [beq_eq_false_iff_ne, ne_eq, hep]
        omega
      simp only [List.filter_cons, h1, Bool.false_eq_true, if_false,
        List.find?_cons, h2]
      exact ih
    · have h1 : (e.1 != p) = true := by simp [hep]
      simp only [List.filter_cons, h1, if_true, List.find?_cons]
      by_cases hes : e.1 = sid
      · simp [hes]
      · have h2 : (e.1 == sid) = false := by simp [hes]
        simp only [h2]
        exact ih

theorem findSid_destroyCurrent_none {l : List (Nat × SessionData)}
    {pres : Option Nat} {p : Nat} (h : findSid l p = none) :
    findSid (destroyCurrent l pres) p = none := by
  rw [findSid, List.find?_eq_none]
  intro e he
  have hmem := mem_destroyCurrent he
  rw [findSid, List.find?_eq_none] at h
  exact h e hmem

/-- registerInsert never touches the session store nor the session id
counter. -/
theorem registerInsert_frame (h : Hasher) (s : ServerState) (b : RegisterBody) :
    (registerInsert h s b).1.sessions = s.sessions ∧
    (registerInsert h s b).1.nextSid = s.nextSid := by
  obtain ⟨un, em, pw⟩ := b
  cases pw with
  | none => exact ⟨rfl, rfl⟩
  | some pw =>
    cases un with
    | none => exact ⟨rfl, rfl⟩
    | some un =>
      cases em with
      | none => exact ⟨rfl, rfl⟩
      | some em =>
        unfold registerInsert
        simp only
        split_ifs <;> exact ⟨rfl, rfl⟩

/-- register never touches the session store nor the session id counter. -/
theorem register_frame (h : Hasher) (s : ServerState) (b : RegisterBody) :
    (register h s b).1.sessions = s.sessions ∧
    (register h s b).1.nextSid = s.nextSid := by
  unfold register
  cases hf : findOneByEmail s.users b.email with
  | none => exact registerInsert_frame h s b
  | some u => exact ⟨rfl, rfl⟩

/-- contact never touches the session store nor the session id counter. -/
theorem contact_frame (s : ServerState) (presented : Option Nat) (b : ContactBody) :
    (contact s presented b).1.sessions = s.sessions ∧
    (contact s presented b).1.nextSid = s.nextSid := by
  obtain ⟨n, e, m⟩ := b
  cases n with
  | none => exact ⟨rfl, rfl⟩
  | some n =>
    cases e with
    | none => exact ⟨rfl, rfl⟩
    | some e =>
      cases m with
      | none => exact ⟨rfl, rfl⟩
      | some m =>
        unfold contact
        simp only
        split_ifs <;> exact ⟨rfl, rfl⟩

/-- dashboard is read-only on the server state. -/
theorem dashboard_state (s : ServerState) (presented : Option Nat) :
    (dashboard s presented).1 = s := by
  unfold dashboard
  cases sessionUserId s presented <;> rfl

/-- Session bindings only depend on the session store. -/
theorem binds_of_sessions_eq {s1 s2 : ServerState}
    (hEq : s1.sessions = s2.sessions) {sid uid : Nat}
    (hb : binds s1 sid uid) : binds s2 sid uid := by
  unfold binds sessionUserId findSid at hb ⊢
  rw [hEq] at hb
  exact hb

end NodeServer

namespace NodeServer

/-! ### Concrete fixtures used by witnesses and counterexamples -/

/-- The empty server state (fresh deployment, empty collections). -/
def state0 : ServerState :=
  { users := [], sessions := [], contacts := [], nextSid := 0, nextUserId := 0,
    hashCalls := 0 }

/-- A registered user whose stored password is the bcryptLike digest of
"secret" at cost 10. -/
def alice : User :=
  { id := 0, username := "alice", email := "a@x.com", password := "$2b$10$secret" }

/-- Server state with alice registered and an anonymous session live under
session id 2. -/
def stAlice : ServerState :=
  { users := [alice], sessions := [(2, { userId := none })], contacts := [],
    nextSid := 3, nextUserId := 1, hashCalls := 1 }

/-! ### Claim theorems -/

/-- C2: a registration whose email matches an existing user answers
400 "User already exists." and leaves the whole state untouched — in
particular the credential store is not mutated and the hash counter does
not move (no hash computed), whatever username and password were sent. -/
theorem register_duplicate_email_rejected (h : Hasher) (s : ServerState)
    (b : RegisterBody) (em : String) (u : User)
    (hem : b.email = some em) (hu : u ∈ s.users) (hmail : u.email = em) :
    register h s b = (s, mkResp 400 "User already exists.") := by
  have hsome : (s.users.find? (fun v => v.email == em)).isSome := by
    rw [List.find?_isSome]
    exact ⟨u, hu, by simp [hmail]⟩
  obtain ⟨v, hv⟩ := Option.isSome_iff_exists.mp hsome
  have hfind : findOneByEmail s.users b.email = some v := by
    rw [hem]
    exact hv
  unfold register
  rw [hfind]

/-- Witness for C2: registering bob under alice's email changes nothing
and answers 400. -/
theorem register_duplicate_email_rejected_witness :
    alice ∈ stAlice.users ∧
    register bcryptLike stAlice
      { username := some "bob", email := some "a@x.com", password := some "pw2" } =
      (stAlice, mkResp 400 "User already exists.") :=
  ⟨by decide,
    register_duplicate_email_rejected bcryptLike stAlice
      { username := some "bob", email := some "a@x.com", password := some "pw2" }
      "a@x.com" alice rfl (by decide) (by decide)⟩

/-- C3: a login with an unknown email and a login with a known email but a
password that fails verification produce the very same response — status
400, body "Invalid email or password." — so the two failure causes are
indistinguishable to the client. -/
theorem login_failures_indistinguishable (h : Hasher) (s : ServerState)
    (p1 p2 : Option Nat) (b1 b2 : LoginBody) (r1 r2 : Bool) (u : User)
    (pw : String)
    (h1 : findOneByEmail s.users b1.email = none)
    (h2 : findOneByEmail s.users b2.email = some u)
    (hpw : b2.password = some pw)
    (hver : h.verify pw u.password = false) :
    (login h s p1 b1 r1).2 = mkResp 400 "Invalid email or password." ∧
    (login h s p2 b2 r2).2 = mkResp 400 "Invalid email or password." ∧
    (login h s p1 b1 r1).2 = (login h s p2 b2 r2).2 := by
  have e1 : (login h s p1 b1 r1).2 = mkResp 400 "Invalid email or password." := by
    unfold login
    rw [h1]
  have e2 : (login h s p2 b2 r2).2 = mkResp 400 "Invalid email or password." := by
    unfold login
    rw [h2, hpw]
    simp [hver]
  exact ⟨e1, e2, by rw [e1, e2]⟩

/-- Witness for C3: unknown email vs wrong password against alice's
account produce the identical 400 response. -/
theorem login_failures_indistinguishable_witness :
    (login bcryptLike stAlice none
        { email := some "nobody@x.com", password := some "secret" } true).2 =
      mkResp 400 "Invalid email or password." ∧
    (login bcryptLike stAlice none
        { email := some "a@x.com", password := some "wrong" } true).2 =
      mkResp 400 "Invalid email or password." ∧
    (login bcryptLike stAlice none
        { email := some "nobody@x.com", password := some "secret" } true).2 =
      (login bcryptLike stAlice none
        { email := some "a@x.com", password := some "wrong" } true).2 :=
  login_failures_indistinguishable bcryptLike stAlice none none
    { email := some "nobody@x.com", password := some "secret" }
    { email := some "a@x.com", password := some "wrong" } true true alice "wrong"
    (by decide) (by decide) rfl (by decide)

/-- C6: when password verification has succeeded but session regeneration
fails, login answers 500 "Error logging in." and the server state is
exactly what it was — in particular the session store binds precisely the
user ids it bound before, so no authenticated state is established. -/
theorem login_regen_failure_aborts (h : Hasher) (s : ServerState)
    (presented : Option Nat) (b : LoginBody) (u : User) (pw : String)
    (hfind : findOneByEmail s.users b.email = some u)
    (hpw : b.password = some pw)
    (hver : h.verify pw u.password = true) :
    login h s presented b false = (s, mkResp 500 "Error logging in.") ∧
    ∀ sid uid, binds (login h s presented b false).1 sid uid ↔ binds s sid uid := by
  have hst : login h s presented b false = (s, mkResp 500 "Error logging in.") := by
    unfold login
    rw [hfind, hpw]
    simp [hver]
  exact ⟨hst, fun sid uid => by rw [hst]⟩

/-- Witness for C6: alice's correct credentials with a failing
regeneration leave the state unchanged and answer 500. -/
theorem login_regen_failure_aborts_witness :
    login bcryptLike stAlice (some 2)
        { email := some "a@x.com", password := some "secret" } false =
      (stAlice, mkResp 500 "Error logging in.") ∧
    ¬ binds (login bcryptLike stAlice (some 2)
        { email := some "a@x.com", password := some "secret" } false).1 2 0 :=
  ⟨(login_regen_failure_aborts bcryptLike stAlice (some 2)
      { email := some "a@x.com", password := some "secret" } alice "secret"
      (by decide) rfl (by decide)).1,
    fun hb =>
      (by decide :
        ¬ binds stAlice 2 0)
        (((login_regen_failure_aborts bcryptLike stAlice (some 2)
          { email := some "a@x.com", password := some "secret" } alice "secret"
          (by decide) rfl (by decide)).2 2 0).mp hb)⟩

/-- C8: the dashboard guard: with no user id bound to the current session
the request answers 401 "Unauthorized. Please log in." leaving the state
untouched; with a bound user id it answers 200 "Welcome to your
dashboard!". -/
theorem dashboard_auth_guard (s : ServerState) (presented : Option Nat) :
    (sessionUserId s presented = none →
      dashboard s presented = (s, mkResp 401 "Unauthorized. Please log in.")) ∧
    ∀ uid, sessionUserId s presented = some uid →
      dashboard s presented = (s, mkResp 200 "Welcome to your dashboard!") := by
  constructor
  · intro hnone
    unfold dashboard
    rw [hnone]
  · intro uid hsome
    unfold dashboard
    rw [hsome]

/-- Witness for C8: the anonymous session 2 meets 401; a session bound to
alice meets 200. -/
theorem dashboard_auth_guard_witness :
    dashboard stAlice (some 2) =
      (stAlice, mkResp 401 "Unauthorized. Please log in.") ∧
    dashboard { stAlice with sessions := [(2, { userId := some 0 })] } (some 2) =
      ({ stAlice with sessions := [(2, { userId := some 0 })] },
        mkResp 200 "Welcome to your dashboard!") :=
  ⟨(dashboard_auth_guard stAlice (some 2)).1 (by decide),
    (dashboard_auth_guard { stAlice with sessions := [(2, { userId := some 0 })] }
      (some 2)).2 0 (by decide)⟩

end NodeServer

namespace NodeServer

/-- C1: on a successful login (email found, password verified, regeneration
succeeding) the response is 200, the freshly allocated session id carries
the authenticated user id, and whatever session id was presented before
login is different from the issued one and no longer resolves to any
record — the pre-existing state bound to it was destroyed before the user
id was written. -/
theorem login_regenerates_session (h : Hasher) (s : ServerState)
    (presented : Option Nat) (b : LoginBody) (u : User) (pw : String)
    (hWF : WF s)
    (hpres : ∀ p, presented = some p → p < s.nextSid)
    (hfind : findOneByEmail s.users b.email = some u)
    (hpw : b.password = some pw)
    (hver : h.verify pw u.password = true) :
    (login h s presented b true).2 = mkResp 200 "Login successful!" ∧
    binds (login h s presented b true).1 s.nextSid u.id ∧
    ∀ p, presented = some p →
      p ≠ s.nextSid ∧
      findSid (login h s presented b true).1.sessions p = none := by
  have hstate : login h s presented b true =
      ({ s with
          sessions := destroyCurrent s.sessions presented ++
            [(s.nextSid, { userId := some u.id })],
          nextSid := s.nextSid + 1 },
        mkResp 200 "Login successful!") := by
    unfold login
    rw [hfind, hpw]
    simp [hver]
  refine ⟨by rw [hstate], ?_, ?_⟩
  · rw [hstate]
    have hnone :
        (destroyCurrent s.sessions presented).find?
          (fun e => e.1 == s.nextSid) = none := by
      rw [List.find?_eq_none]
      intro e he
      have hlt := hWF e (mem_destroyCurrent he)
      simp only [beq_iff_eq]
      omega
    unfold binds sessionUserId findSid
    simp [List.find?_append, hnone]
  · intro p hp
    have hlt := hpres p hp
    refine ⟨by omega, ?_⟩
    rw [hstate, hp]
    show findSid (destroyCurrent s.sessions (some p) ++
      [(s.nextSid, { userId := some u.id })]) p = none
    unfold findSid
    rw [List.find?_append]
    have h1 : findSid (removeSid s.sessions p) p = none := findSid_removeSid_self _ _
    rw [findSid] at h1
    have h2 : [((s.nextSid : Nat), ({ userId := some u.id } : SessionData))].find?
        (fun e => e.1 == p) = none := by
      rw [List.find?_eq_none]
      intro e he
      simp only [List.mem_singleton] at he
      subst he
      simp only [beq_iff_eq]
      omega
    rw [show destroyCurrent s.sessions (some p) = removeSid s.sessions p from rfl,
      h1, h2]
    rfl

/-- Witness for C1: alice logs in while presenting the anonymous session
id 2; the issued id is 3, bound to alice, and id 2 is destroyed. -/
theorem login_regenerates_session_witness :
    WF stAlice ∧
    (login bcryptLike stAlice (some 2)
        { email := some "a@x.com", password := some "secret" } true).2 =
      mkResp 200 "Login successful!" ∧
    binds (login bcryptLike stAlice (some 2)
        { email := some "a@x.com", password := some "secret" } true).1 3 0 ∧
    (2 : Nat) ≠ 3 ∧
    findSid (login bcryptLike stAlice (some 2)
        { email := some "a@x.com", password := some "secret" } true).1.sessions 2 =
      none := by
  have H := login_regenerates_session bcryptLike stAlice (some 2)
    { email := some "a@x.com", password := some "secret" } alice "secret"
    (by decide)
    (by
      intro p hp
      obtain rfl : (2 : Nat) = p := by injection hp
      decide)
    (by decide) rfl (by decide)
  exact ⟨by decide, H.1, H.2.1, (H.2.2 2 rfl).1, (H.2.2 2 rfl).2⟩

end NodeServer

namespace NodeServer

/-- The bcryptLike digest is never the plaintext: the digest is strictly
longer than its input (true of real bcrypt digests as well, which carry a
version/cost/salt prefix). -/
theorem bcryptLike_hash_ne_plain (q : String) (c : Nat) :
    bcryptLike.hash q c ≠ q := by
  intro hEq
  have hlen := congrArg String.length hEq
  simp only [bcryptLike, String.length_append] at hlen
  have h4 : ("$2b$" : String).length = 4 := rfl
  have h1 : ("$" : String).length = 1 := rfl
  rw [h4, h1] at hlen
  omega

/-- C9: a registration that succeeds (fresh email, non-empty fields,
hasher producing a non-empty digest unequal to the plaintext) answers 201,
appends exactly one user record whose password field is the cost-10 hash
— not the plaintext — and leaves the session store exactly as it was, so
no session is created and no user id becomes bound by registration. -/
theorem register_persists_hash_only (h : Hasher) (s : ServerState)
    (b : RegisterBody) (un em pw : String)
    (hb : b = { username := some un, email := some em, password := some pw })
    (hun : un ≠ "") (hem : em ≠ "")
    (hpre : findOneByEmail s.users b.email = none)
    (hhash : h.hash pw 10 ≠ "")
    (hplain : ∀ q c, h.hash q c ≠ q) :
    (register h s b).2 = mkResp 201 "User registered successfully!" ∧
    (register h s b).1.users = s.users ++
      [{ id := s.nextUserId, username := un, email := em,
          password := h.hash pw 10 }] ∧
    h.hash pw 10 ≠ pw ∧
    (register h s b).1.sessions = s.sessions := by
  subst hb
  have hfind : findOneByEmail s.users (some em) = none := hpre
  have hdup : (s.users.find? (fun u => u.email == em)).isSome = false := by
    rw [findOneByEmail] at hfind
    rw [hfind]
    rfl
  have hcond : (un == "" || em == "" || h.hash pw 10 == "") = false := by
    simp [hun, hem, hhash]
  unfold register
  rw [hfind]
  unfold registerInsert
  simp only [hcond, Bool.false_eq_true, if_false, hdup]
  refine ⟨?_, ?_, hplain pw 10, ?_⟩ <;> first | rfl | trivial

/-- Witness for C9: registering bob in the empty store persists the
digest of "hunter2" and leaves the (empty) session store untouched. -/
theorem register_persists_hash_only_witness :
    (register bcryptLike state0
        { username := some "bob", email := some "b@x.com",
          password := some "hunter2" }).2 =
      mkResp 201 "User registered successfully!" ∧
    (register bcryptLike state0
        { username := some "bob", email := some "b@x.com",
          password := some "hunter2" }).1.users =
      state0.users ++
        [{ id := state0.nextUserId, username := "bob", email := "b@x.com",
            password := bcryptLike.hash "hunter2" 10 }] ∧
    bcryptLike.hash "hunter2" 10 ≠ "hunter2" ∧
    (register bcryptLike state0
        { username := some "bob", email := some "b@x.com",
          password := some "hunter2" }).1.sessions = state0.sessions :=
  register_persists_hash_only bcryptLike state0
    { username := some "bob", email := some "b@x.com", password := some "hunter2" }
    "bob" "b@x.com" "hunter2" rfl (by decide) (by decide) (by decide) (by decide)
    bcryptLike_hash_ne_plain

end NodeServer

namespace NodeServer

/-- State as seen by the second of two racing same-email registrations at
insert time: the first request has already committed alice. -/
def raceState : ServerState :=
  { users := [alice], sessions := [], contacts := [], nextSid := 0,
    nextUserId := 1, hashCalls := 1 }

/-- The second racing registration: same email as alice. -/
def raceBody : RegisterBody :=
  { username := some "bob", email := some "a@x.com", password := some "hunter2" }

/-- Counterexample to C4: both racing requests pre-check against the empty
store (the pre-check passes), but the second insert — running after the
first commit — is rejected by the unique index and lands in the generic
catch block: the client sees 500 "Error registering user.", not the 400
"User already exists." of the pre-check path. -/
theorem race_duplicate_surfaces_generic_500 :
    findOneByEmail state0.users raceBody.email = none ∧
    (registerInsert bcryptLike raceState raceBody).2 =
      mkResp 500 "Error registering user." ∧
    (registerInsert bcryptLike raceState raceBody).2 ≠
      mkResp 400 "User already exists." := by
  refine ⟨rfl, ?_, ?_⟩ <;> decide

/-- C4 amended: when the insert phase runs against a store that already
holds the email (the race outcome), the unique-index rejection is surfaced
as the generic 500 "Error registering user." and the credential store is
left unchanged. -/
theorem race_duplicate_insert_is_500 (h : Hasher) (sNow : ServerState)
    (b : RegisterBody) (un em pw : String) (u : User)
    (hb : b = { username := some un, email := some em, password := some pw })
    (hu : u ∈ sNow.users) (hmail : u.email = em) :
    (registerInsert h sNow b).2 = mkResp 500 "Error registering user." ∧
    (registerInsert h sNow b).1.users = sNow.users := by
  subst hb
  unfold registerInsert
  simp only
  split_ifs with hcond hdup
  · exact ⟨rfl, rfl⟩
  · exact ⟨rfl, rfl⟩
  · exfalso
    apply hdup
    rw [List.find?_isSome]
    exact ⟨u, hu, by simp [hmail]⟩

/-- Witness for the amended C4: the racing insert of bob under alice's
email answers 500 and does not touch the user collection. -/
theorem race_duplicate_insert_is_500_witness :
    alice ∈ raceState.users ∧
    (registerInsert bcryptLike raceState raceBody).2 =
      mkResp 500 "Error registering user." ∧
    (registerInsert bcryptLike raceState raceBody).1.users = raceState.users :=
  ⟨by decide,
    race_duplicate_insert_is_500 bcryptLike raceState raceBody "bob" "a@x.com"
      "hunter2" alice rfl (by decide) (by decide)⟩

/-- The registration body with an empty-string password that C5 claims
must be rejected. -/
def emptyPwBody : RegisterBody :=
  { username := some "bob", email := some "b@x.com", password := some "" }

/-- Counterexample to C5: a registration with an empty password does not
fail at all — the empty string is hashed and the user is persisted, 201. -/
theorem register_empty_password_accepted :
    (register bcryptLike state0 emptyPwBody).2 =
      mkResp 201 "User registered successfully!" ∧
    (register bcryptLike state0 emptyPwBody).1.users =
      [{ id := 0, username := "bob", email := "b@x.com",
          password := "$2b$10$" }] := by
  refine ⟨?_, ?_⟩ <;> decide

/-- C5 amended: the handler performs no input validation of its own.  When
the email pre-check finds nothing, a missing or empty username or email, or
a missing password, makes the store-level rejection (schema validation or
bcrypt throwing on undefined) land in the catch block as a 500 server
error — not a 4xx — while a present-but-empty password sails through and
the registration succeeds with 201. -/
theorem register_has_no_field_validation (h : Hasher) (s : ServerState)
    (b : RegisterBody)
    (hpre : findOneByEmail s.users b.email = none) :
    ((b.username = none ∨ b.username = some "" ∨ b.email = none ∨
        b.email = some "" ∨ b.password = none) →
      (register h s b).2 = mkResp 500 "Error registering user.") ∧
    (∀ un em, un ≠ "" → em ≠ "" → h.hash "" 10 ≠ "" →
      b = { username := some un, email := some em, password := some "" } →
      (register h s b).2 = mkResp 201 "User registered successfully!") := by
  constructor
  · intro hbad
    unfold register
    rw [hpre]
    obtain ⟨un, em, pw⟩ := b
    cases pw with
    | none => rfl
    | some pw =>
      cases un with
      | none => rfl
      | some un =>
        cases em with
        | none => rfl
        | some em =>
          simp only [RegisterBody.username, RegisterBody.email,
            RegisterBody.password, Option.some.injEq, reduceCtorEq,
            false_or, or_false] at hbad
          have hcond : (un == "" || em == "" || h.hash pw 10 == "") = true := by
            rcases hbad with hbad | hbad <;> simp [hbad]
          unfold registerInsert
          simp only [hcond, if_true]
  · intro un em hun hem hhash hb
    subst hb
    have hfind : findOneByEmail s.users (some em) = none := hpre
    have hdup : (s.users.find? (fun u => u.email == em)).isSome = false := by
      rw [findOneByEmail] at hfind
      rw [hfind]
      rfl
    have hcond : (un == "" || em == "" || h.hash "" 10 == "") = false := by
      simp [hun, hem, hhash]
    unfold register
    rw [hfind]
    unfold registerInsert
    simp only [hcond, Bool.false_eq_true, if_false, hdup]

/-- Witness for the amended C5: against the empty store, a missing
password yields 500, and bob with an empty password is accepted with 201. -/
theorem register_has_no_field_validation_witness :
    (register bcryptLike state0
        { username := some "bob", email := some "b@x.com", password := none }).2 =
      mkResp 500 "Error registering user." ∧
    (register bcryptLike state0 emptyPwBody).2 =
      mkResp 201 "User registered successfully!" :=
  ⟨(register_has_no_field_validation bcryptLike state0
      { username := some "bob", email := some "b@x.com", password := none }
      (by decide)).1 (Or.inr (Or.inr (Or.inr (Or.inr rfl)))),
    (register_has_no_field_validation bcryptLike state0 emptyPwBody
      (by decide)).2 "bob" "b@x.com" (by decide) (by decide) (by decide) rfl⟩

end NodeServer

namespace NodeServer

/-- Invariant on a session id `p`: it is below the allocation counter
(so it can never be re-issued) and no store record carries it. -/
def SidFree (s : ServerState) (p : Nat) : Prop :=
  p < s.nextSid ∧ findSid s.sessions p = none

instance (s : ServerState) (p : Nat) : Decidable (SidFree s p) := by
  unfold SidFree
  infer_instance

/-- One request of any kind preserves SidFree: no handler ever re-creates
a record under a previously allocated and destroyed session id. -/
theorem step_preserves_sidFree (h : Hasher) (s : ServerState)
    (c : Option Nat) (r : Request) (p : Nat) (hp : SidFree s p) :
    SidFree (step h s c r).1 p := by
  obtain ⟨hlt, hnone⟩ := hp
  cases r with
  | reg b =>
    have hf := register_frame h s b
    have h1 : p < (register h s b).1.nextSid := by
      rw [hf.2]
      exact hlt
    have h2 : findSid (register h s b).1.sessions p = none := by
      rw [hf.1]
      exact hnone
    exact ⟨h1, h2⟩
  | auth b regenOk =>
    show SidFree (login h s c b regenOk).1 p
    unfold login
    cases hfind : findOneByEmail s.users b.email with
    | none => exact ⟨hlt, hnone⟩
    | some u =>
      cases hpw : b.password with
      | none => exact ⟨hlt, hnone⟩
      | some pw =>
        show SidFree
          (if h.verify pw u.password = true then
            (if regenOk = true then
              ({ s with
                  sessions := destroyCurrent s.sessions c ++
                    [(s.nextSid, { userId := some u.id })],
                  nextSid := s.nextSid + 1 },
                mkResp 200 "Login successful!")
            else (s, mkResp 500 "Error logging in."))
          else (s, mkResp 400 "Invalid email or password.")).1 p
        split_ifs with hver hregen
        · have h1 : p < s.nextSid + 1 := by omega
          have h2 : findSid (destroyCurrent s.sessions c ++
              [(s.nextSid, { userId := some u.id })]) p = none := by
            unfold findSid
            rw [List.find?_append]
            have ha : findSid (destroyCurrent s.sessions c) p = none :=
              findSid_destroyCurrent_none hnone
            rw [findSid] at ha
            rw [ha]
            have hb : [((s.nextSid : Nat), ({ userId := some u.id } : SessionData))].find?
                (fun e => e.1 == p) = none := by
              rw [List.find?_eq_none]
              intro e he
              simp only [List.mem_singleton] at he
              subst he
              simp only [beq_iff_eq]
              omega
            rw [hb]
            rfl
          exact ⟨h1, h2⟩
        · exact ⟨hlt, hnone⟩
        · exact ⟨hlt, hnone⟩
  | quit destroyOk =>
    show SidFree (logout s c destroyOk).1 p
    unfold logout
    cases destroyOk with
    | false => exact ⟨hlt, hnone⟩
    | true => exact ⟨hlt, findSid_destroyCurrent_none hnone⟩
  | board =>
    rw [show (step h s c Request.board).1 = (dashboard s c).1 from rfl,
      dashboard_state]
    exact ⟨hlt, hnone⟩
  | message b =>
    have hf := contact_frame s c b
    have h1 : p < (contact s c b).1.nextSid := by
      rw [hf.2]
      exact hlt
    have h2 : findSid (contact s c b).1.sessions p = none := by
      rw [hf.1]
      exact hnone
    exact ⟨h1, h2⟩

/-- Any sequence of requests preserves SidFree. -/
theorem run_preserves_sidFree (h : Hasher) (s : ServerState) (p : Nat)
    (reqs : List (Option Nat × Request)) (hp : SidFree s p) :
    SidFree (run h s reqs) p := by
  induction reqs generalizing s with
  | nil => exact hp
  | cons cr rest ih =>
    exact ih (step h s cr.1 cr.2).1 (step_preserves_sidFree h s cr.1 cr.2 p hp)

/-- C7: a successful logout answers 200 with the cookie-clearing
instruction, removes the session record of the presented cookie from the
store entirely, and — whatever requests are served afterwards — any later
dashboard request presenting the old cookie is refused with 401. -/
theorem logout_destroys_session_locks_out (h : Hasher) (s : ServerState)
    (p : Nat) (hp : p < s.nextSid) :
    (logout s (some p) true).2 =
      { status := 200, body := "Logout successful!", clearCookie := true } ∧
    findSid (logout s (some p) true).1.sessions p = none ∧
    ∀ reqs, (dashboard (run h (logout s (some p) true).1 reqs) (some p)).2 =
      mkResp 401 "Unauthorized. Please log in." := by
  have hgone : findSid (logout s (some p) true).1.sessions p = none := by
    show findSid (removeSid s.sessions p) p = none
    exact findSid_removeSid_self _ _
  refine ⟨rfl, hgone, ?_⟩
  intro reqs
  have hfree : SidFree (logout s (some p) true).1 p := ⟨hp, hgone⟩
  have hrun := run_preserves_sidFree h (logout s (some p) true).1 p reqs hfree
  have hnone2 :
      sessionUserId (run h (logout s (some p) true).1 reqs) (some p) = none := by
    show (match findSid (run h (logout s (some p) true).1 reqs).sessions p with
      | none => none
      | some e => e.2.userId) = none
    rw [hrun.2]
  unfold dashboard
  rw [hnone2]

/-- Witness for C7: alice's anonymous session 2 is destroyed by logout and
the old cookie is refused by the dashboard even after an interleaved
successful login by alice under a different cookie. -/
theorem logout_destroys_session_locks_out_witness :
    (logout stAlice (some 2) true).2 =
      { status := 200, body := "Logout successful!", clearCookie := true } ∧
    findSid (logout stAlice (some 2) true).1.sessions 2 = none ∧
    (dashboard
        (run bcryptLike (logout stAlice (some 2) true).1
          [(none, Request.auth
              { email := some "a@x.com", password := some "secret" } true),
            (some 2, Request.board)])
        (some 2)).2 =
      mkResp 401 "Unauthorized. Please log in." := by
  have H := logout_destroys_session_locks_out bcryptLike stAlice 2 (by decide)
  exact ⟨H.1, H.2.1, H.2.2 _⟩

end NodeServer

namespace NodeServer

/-- Unfolding of binds through the store lookup. -/
theorem binds_iff_findSid (s : ServerState) (sid uid : Nat) :
    binds s sid uid ↔
      ∃ e, findSid s.sessions sid = some e ∧ e.2.userId = some uid := by
  have hred : binds s sid uid =
      ((match findSid s.sessions sid with
        | none => none
        | some e => e.2.userId) = some uid) := rfl
  rw [hred]
  cases hfs : findSid s.sessions sid with
  | none => simp
  | some e => simp

/-- C10: across all five endpoints, the only way a session binding
(sid, uid) can appear that was not there before the request is a login
request whose regeneration succeeded and which answered
200 "Login successful!"; register, logout, dashboard and contact never
bind a user id to a session. -/
theorem only_login_binds_userId (h : Hasher) (s : ServerState)
    (presented : Option Nat) (r : Request) (sid uid : Nat)
    (hafter : binds (step h s presented r).1 sid uid)
    (hbefore : ¬ binds s sid uid) :
    ∃ b, r = Request.auth b true ∧
      (step h s presented r).2 = mkResp 200 "Login successful!" := by
  cases r with
  | reg b =>
    exact absurd (binds_of_sessions_eq (register_frame h s b).1 hafter) hbefore
  | board =>
    refine absurd (binds_of_sessions_eq ?_ hafter) hbefore
    show (dashboard s presented).1.sessions = s.sessions
    rw [dashboard_state]
  | message b =>
    exact absurd (binds_of_sessions_eq (contact_frame s presented b).1 hafter)
      hbefore
  | quit destroyOk =>
    exfalso
    apply hbefore
    cases destroyOk with
    | false => exact hafter
    | true =>
      have hafter' :
          binds { s with sessions := destroyCurrent s.sessions presented }
            sid uid := hafter
      rw [binds_iff_findSid] at hafter' ⊢
      obtain ⟨e, hfs, hud⟩ := hafter'
      have hfs' : findSid (destroyCurrent s.sessions presented) sid = some e := hfs
      cases presented with
      | none => exact ⟨e, hfs', hud⟩
      | some p =>
        by_cases hsp : sid = p
        · subst hsp
          rw [show destroyCurrent s.sessions (some sid) = removeSid s.sessions sid
              from rfl,
            findSid_removeSid_self] at hfs'
          exact absurd hfs' (by simp)
        · rw [show destroyCurrent s.sessions (some p) = removeSid s.sessions p
              from rfl,
            findSid_removeSid_ne s.sessions p sid hsp] at hfs'
          exact ⟨e, hfs', hud⟩
  | auth b regenOk =>
    cases hfind : findOneByEmail s.users b.email with
    | none =>
      have hst : login h s presented b regenOk =
          (s, mkResp 400 "Invalid email or password.") := by
        unfold login
        rw [hfind]
      have hafter' : binds (login h s presented b regenOk).1 sid uid := hafter
      rw [hst] at hafter'
      exact absurd hafter' hbefore
    | some u =>
      cases hpw : b.password with
      | none =>
        have hst : login h s presented b regenOk =
            (s, mkResp 500 "Error logging in.") := by
          unfold login
          rw [hfind, hpw]
        have hafter' : binds (login h s presented b regenOk).1 sid uid := hafter
        rw [hst] at hafter'
        exact absurd hafter' hbefore
      | some pw =>
        cases hver : h.verify pw u.password with
        | false =>
          have hst : login h s presented b regenOk =
              (s, mkResp 400 "Invalid email or password.") := by
            unfold login
            rw [hfind, hpw]
            simp [hver]
          have hafter' : binds (login h s presented b regenOk).1 sid uid := hafter
          rw [hst] at hafter'
          exact absurd hafter' hbefore
        | true =>
          cases regenOk with
          | false =>
            have hst : login h s presented b false =
                (s, mkResp 500 "Error logging in.") := by
              unfold login
              rw [hfind, hpw]
              simp [hver]
            have hafter' : binds (login h s presented b false).1 sid uid := hafter
            rw [hst] at hafter'
            exact absurd hafter' hbefore
          | true =>
            refine ⟨b, rfl, ?_⟩
            show (login h s presented b true).2 = mkResp 200 "Login successful!"
            unfold login
            rw [hfind, hpw]
            simp [hver]

/-- Witness for C10: the binding (3, alice) appearing during alice's
successful login was created by that login, which answered 200. -/
theorem only_login_binds_userId_witness :
    ∃ b, Request.auth
        { email := some "a@x.com", password := some "secret" } true =
        Request.auth b true ∧
      (step bcryptLike stAlice none
          (Request.auth
            { email := some "a@x.com", password := some "secret" } true)).2 =
        mkResp 200 "Login successful!" :=
  only_login_binds_userId bcryptLike stAlice none
    (Request.auth { email := some "a@x.com", password := some "secret" } true)
    3 0 (by decide) (by decide)

end NodeServer
